import Mathlib

/-
Verification of the GitKeeper GitHub backup tool.

The development shallowly embeds the two stateful cores of the program:

* `settings.py` — the `SettingsManager` class: a SQLite-backed key/value
  store with optional symmetric encryption of values, plus named
  configuration profiles.  SQLite state is modelled as explicit lists of
  rows; `CURRENT_TIMESTAMP` is modelled by an explicit logical clock
  passed to each operation.  `INSERT OR REPLACE` is modelled faithfully
  to SQLite semantics: the conflicting row is deleted and a fresh row is
  inserted, every column not named in the INSERT taking its schema
  default (in particular `created_at DEFAULT CURRENT_TIMESTAMP` and
  `active DEFAULT FALSE`).

* `github_backup.py` / `tui_app.py` — the backup orchestration:
  `clone_repository`, `backup_repository_metadata`, `backup_repositories`,
  `backup_gists`, `run_backup` and the TUI's selective-backup path.
  The external world (GitHub API responses, git subprocess outcomes,
  filesystem) is an explicit environment value; Python exceptions are
  the `Except` monad, and a `try/except` block is a `match` on the body.

The Python `json` library is modelled in two halves.  `json.dumps` is
modelled on the scalar values the repository ever passes to
`SettingsManager.set` (`None`, booleans, integers, strings — every call
site stores a string or an int).  `json.loads`, whose success or failure
decides whether `get` returns a decoded object or falls back to the raw
string, is modelled as a full JSON parser following CPython's decoder:
surrounding whitespace, `null`/`true`/`false`, the complete number
grammar (optional sign, no leading zero, optional fraction and
exponent — yielding an int when neither is present and a float
otherwise), the `NaN`/`Infinity`/`-Infinity` extensions, strings with
all of CPython's escapes (`\" \\ \/ \b \f \n \r \t \uXXXX`, combining
UTF-16 surrogate pairs) and strict rejection of raw control characters,
arrays, and objects with Python's last-value-wins duplicate-key
semantics.  Two representation choices are documented at the
definitions: finite floats are carried as the decimal components of
their literal rather than as IEEE doubles (no claim identifies distinct
literals denoting the same double), and lone UTF-16 surrogate escapes —
which CPython tolerates, yielding non-scalar strings that Lean's
`String` cannot hold — are rejected.  The Fernet cipher is modelled at
its contract boundary: an arbitrary pair of functions with
`decrypt (encrypt s) = s`.
-/

namespace GitKeeper

/-! ### Python scalar values and the `json` library model -/

/-- Python values callers pass to `SettingsManager.set`: `None`,
booleans, integers and strings — the value fragment every `set` call
site in the repository uses (tokens, paths and org names are strings,
the worker count is an int). -/
inductive PyValue where
  | pyNone
  | pyBool (b : Bool)
  | pyInt (i : Int)
  | pyStr (s : String)
deriving DecidableEq, Repr

/-- Decimal digit character for a digit value below ten. -/
def digitChar (d : Nat) : Char :=
  match d with
  | 0 => '0' | 1 => '1' | 2 => '2' | 3 => '3' | 4 => '4'
  | 5 => '5' | 6 => '6' | 7 => '7' | 8 => '8' | _ => '9'

/-- Big-endian decimal character representation of a positive natural
number (empty for zero). -/
def natChars (n : Nat) : List Char :=
  ((Nat.digits 10 n).map digitChar).reverse

/-- Decimal rendering of an integer, as Python's `json.dumps` prints it. -/
def intChars : Int → List Char
  | Int.ofNat 0 => ['0']
  | Int.ofNat (n + 1) => natChars (n + 1)
  | Int.negSucc m => '-' :: natChars (m + 1)

/-- Escaping of a character inside a JSON string literal (the fragment
used here escapes the quote and the backslash). -/
def escapeChar (c : Char) : List Char :=
  if c = '"' ∨ c = '\\' then ['\\', c] else [c]

/-- Model of `json.dumps` on the scalar fragment. -/
def json_dumps : PyValue → String
  | .pyNone => "null"
  | .pyBool true => "true"
  | .pyBool false => "false"
  | .pyInt i => String.mk (intChars i)
  | .pyStr s => String.mk ('"' :: (s.data.map escapeChar).flatten ++ ['"'])

/-- Numeric value of a decimal digit character. -/
def digitVal (c : Char) : Nat := c.toNat - 48

/-- Value of a big-endian decimal digit string. -/
def decValue (cs : List Char) : Nat :=
  cs.foldl (fun a c => 10 * a + digitVal c) 0

/-- Result of Python's `float()` on the tokens the JSON decoder hands
it.  A finite double is represented by the decimal components of its
literal — sign, integer digits, fraction digits and decimal exponent —
rather than by an IEEE bit pattern; no claim in this development
identifies distinct literals that round to the same double.  `NaN`,
`Infinity` and `-Infinity` (accepted by CPython's decoder by default)
get their own constructors. -/
inductive PyFloat where
  | finite (neg : Bool) (intDigits : List Char) (fracDigits : List Char) (exp : Int)
  | inf (neg : Bool)
  | nan
deriving DecidableEq, Repr

/-- Python objects produced by `json.loads`: `None`, `bool`, `int`,
`float`, `str`, `list` and `dict` (fields in insertion order).  This is
also the return type of `SettingsManager.get`, whose fallback branch
returns the raw text as a `str`. -/
inductive JValue where
  | jnull
  | jbool (b : Bool)
  | jint (i : Int)
  | jfloat (f : PyFloat)
  | jstr (s : String)
  | jarr (xs : List JValue)
  | jobj (fields : List (String × JValue))
deriving Repr

/-- JSON whitespace, exactly the four characters CPython's decoder
skips. -/
def isWS (c : Char) : Bool :=
  c = ' ' ∨ c = '\t' ∨ c = '\n' ∨ c = '\r'

/-- Drop leading JSON whitespace. -/
def skipWS : List Char → List Char
  | [] => []
  | c :: rest => if isWS c then skipWS rest else c :: rest

/-- Longest leading run of decimal digits, and the rest. -/
def spanDigits : List Char → List Char × List Char
  | [] => ([], [])
  | c :: rest =>
    if c.isDigit then (c :: (spanDigits rest).1, (spanDigits rest).2)
    else ([], c :: rest)

/-- Integer part of the JSON number grammar: `0 | [1-9][0-9]*` (no
leading zero), returning the digits consumed and the rest. -/
def parseIntPart : List Char → Option (List Char × List Char)
  | [] => none
  | c :: rest =>
    if c = '0' then some (['0'], rest)
    else if c.isDigit then some (c :: (spanDigits rest).1, (spanDigits rest).2)
    else none

/-- Optional fraction part `. [0-9]+`; when absent (or the dot is not
followed by a digit, in which case the regex match simply stops before
the dot) nothing is consumed. -/
def parseFracPart : List Char → List Char × List Char
  | '.' :: rest =>
    if (spanDigits rest).1.isEmpty then ([], '.' :: rest)
    else ((spanDigits rest).1, (spanDigits rest).2)
  | cs => ([], cs)

/-- Exponent digits after `e`/`E`, with optional sign; `orig` is
returned unconsumed when no digit follows, as with the regex. -/
def parseExpTail (orig rest : List Char) : Option Int × List Char :=
  let signed : Bool × List Char :=
    match rest with
    | '+' :: r => (false, r)
    | '-' :: r => (true, r)
    | r => (false, r)
  if (spanDigits signed.2).1.isEmpty then (none, orig)
  else
    (some (if signed.1 then -(decValue (spanDigits signed.2).1 : Int)
           else (decValue (spanDigits signed.2).1 : Int)),
     (spanDigits signed.2).2)

/-- Optional exponent part `[eE][+-]?[0-9]+`. -/
def parseExpPart : List Char → Option Int × List Char
  | c :: rest =>
    if c = 'e' ∨ c = 'E' then parseExpTail (c :: rest) rest
    else (none, c :: rest)
  | [] => (none, [])

/-- Number token after the optional leading minus has been split off:
int part, optional fraction, optional exponent.  As in CPython, the
value is an `int` when neither fraction nor exponent is present and a
`float` otherwise. -/
def parseNumberCore (neg : Bool) (cs : List Char) : Option (JValue × List Char) :=
  match parseIntPart cs with
  | none => none
  | some (intDs, cs₂) =>
    let fp := parseFracPart cs₂
    let ep := parseExpPart fp.2
    if fp.1.isEmpty ∧ ep.1 = none then
      some (.jint (if neg then -(decValue intDs : Int) else (decValue intDs : Int)),
            ep.2)
    else
      some (.jfloat (.finite neg intDs fp.1 (ep.1.getD 0)), ep.2)

/-- CPython's JSON number grammar
`-? (0 | [1-9][0-9]*) (\.[0-9]+)? ([eE][+-]?[0-9]+)?`. -/
def parseNumber (cs : List Char) : Option (JValue × List Char) :=
  if cs.head? = some '-' then parseNumberCore true cs.tail
  else parseNumberCore false cs

/-- Value of a hexadecimal digit character. -/
def hexVal (c : Char) : Option Nat :=
  if '0' ≤ c ∧ c ≤ '9' then some (c.toNat - 48)
  else if 'a' ≤ c ∧ c ≤ 'f' then some (c.toNat - 87)
  else if 'A' ≤ c ∧ c ≤ 'F' then some (c.toNat - 55)
  else none

/-- Four hexadecimal digits of a `\uXXXX` escape. -/
def parse4Hex : List Char → Option (Nat × List Char)
  | a :: b :: c :: d :: rest =>
    match hexVal a, hexVal b, hexVal c, hexVal d with
    | some x, some y, some z, some w =>
      some (((x * 16 + y) * 16 + z) * 16 + w, rest)
    | _, _, _, _ => none
  | _ => none

/-- The single-character string escapes CPython's decoder accepts. -/
def escapeCharMap (e : Char) : Option Char :=
  if e = '"' then some '"'
  else if e = '\\' then some '\\'
  else if e = '/' then some '/'
  else if e = 'b' then some (Char.ofNat 8)
  else if e = 'f' then some (Char.ofNat 12)
  else if e = 'n' then some '\n'
  else if e = 'r' then some '\r'
  else if e = 't' then some '\t'
  else none

/-- String body after the opening quote, as CPython's strict
`py_scanstring`: ordinary characters are taken verbatim except raw
control characters (below `0x20`), which are rejected; backslash starts
one of the eight named escapes or `\uXXXX`; a high-surrogate `\uXXXX`
followed by a low-surrogate escape combines into one code point.  The
one divergence from CPython is documented here: CPython tolerates a
lone surrogate escape, producing a non-scalar `str` that Lean's
`String` cannot represent, so the model rejects it.  The fuel argument
only bounds recursion; every step consumes at least one character, so
any fuel past the input length is enough. -/
def parseJString : Nat → List Char → Option (List Char × List Char)
  | 0, _ => none
  | fuel + 1, cs =>
    match cs with
    | [] => none
    | c :: rest =>
      if c = '"' then some ([], rest)
      else if c = '\\' then
        match rest with
        | [] => none
        | e :: rest₁ =>
          if e = 'u' then
            match parse4Hex rest₁ with
            | none => none
            | some (n, rest₂) =>
              if 0xD800 ≤ n ∧ n ≤ 0xDBFF then
                match rest₂ with
                | '\\' :: 'u' :: rest₃ =>
                  match parse4Hex rest₃ with
                  | none => none
                  | some (m, rest₄) =>
                    if 0xDC00 ≤ m ∧ m ≤ 0xDFFF then
                      match parseJString fuel rest₄ with
                      | none => none
                      | some (s, r) =>
                        some (Char.ofNat
                          (0x10000 + (n - 0xD800) * 0x400 + (m - 0xDC00)) :: s, r)
                    else none
                | _ => none
              else if 0xDC00 ≤ n ∧ n ≤ 0xDFFF then none
              else
                match parseJString fuel rest₂ with
                | none => none
                | some (s, r) => some (Char.ofNat n :: s, r)
          else
            match escapeCharMap e with
            | none => none
            | some d =>
              match parseJString fuel rest₁ with
              | none => none
              | some (s, r) => some (d :: s, r)
      else if c.toNat < 0x20 then none
      else
        match parseJString fuel rest with
        | none => none
        | some (s, r) => some (c :: s, r)

/-- Insert one object member with Python's `dict` semantics: a repeated
key keeps its first position and takes the last value. -/
def insertPair (k : String) (v : JValue) :
    List (String × JValue) → List (String × JValue)
  | [] => [(k, v)]
  | (k₁, v₁) :: rest =>
    if k₁ = k then (k₁, v) :: rest else (k₁, v₁) :: insertPair k v rest

/-- Build the decoded `dict` from the members in source order. -/
def buildDict (ps : List (String × JValue)) : List (String × JValue) :=
  ps.foldl (fun acc p => insertPair p.1 p.2 acc) []

mutual

/-- One JSON value, dispatched on the leading character exactly as
CPython's scanner: string, array, object, the `null`/`true`/`false`
literals, the `NaN`/`Infinity`/`-Infinity` extensions, else a number.
The fuel argument only bounds recursion: every recursive call follows
at least one consumed character, so the generous fuel supplied by
`json_loads` can never run out first. -/
def parseValue : Nat → List Char → Option (JValue × List Char)
  | 0, _ => none
  | fuel + 1, cs =>
    if cs.take 4 = ['n', 'u', 'l', 'l'] then some (.jnull, cs.drop 4)
    else if cs.take 4 = ['t', 'r', 'u', 'e'] then some (.jbool true, cs.drop 4)
    else if cs.take 5 = ['f', 'a', 'l', 's', 'e'] then
      some (.jbool false, cs.drop 5)
    else if cs.take 3 = ['N', 'a', 'N'] then some (.jfloat .nan, cs.drop 3)
    else if cs.take 8 = ['I', 'n', 'f', 'i', 'n', 'i', 't', 'y'] then
      some (.jfloat (.inf false), cs.drop 8)
    else if cs.take 9 = ['-', 'I', 'n', 'f', 'i', 'n', 'i', 't', 'y'] then
      some (.jfloat (.inf true), cs.drop 9)
    else if cs.head? = some '"' then
      match parseJString (fuel + 1) cs.tail with
      | none => none
      | some (s, r) => some (.jstr (String.mk s), r)
    else if cs.head? = some '[' then
      match skipWS cs.tail with
      | ']' :: r₂ => some (.jarr [], r₂)
      | r₁ =>
        match parseArrayItems fuel r₁ with
        | none => none
        | some (vs, r) => some (.jarr vs, r)
    else if cs.head? = some '{' then
      match skipWS cs.tail with
      | '}' :: r₂ => some (.jobj [], r₂)
      | r₁ =>
        match parseObjectItems fuel r₁ with
        | none => none
        | some (ps, r) => some (.jobj (buildDict ps), r)
    else parseNumber cs

/-- Comma-separated array elements, positioned at the first element. -/
def parseArrayItems : Nat → List Char → Option (List JValue × List Char)
  | 0, _ => none
  | fuel + 1, cs =>
    match parseValue fuel cs with
    | none => none
    | some (v, r) =>
      match skipWS r with
      | ',' :: r₂ =>
        match parseArrayItems fuel (skipWS r₂) with
        | none => none
        | some (vs, r₃) => some (v :: vs, r₃)
      | ']' :: r₂ => some ([v], r₂)
      | _ => none

/-- Comma-separated `"key" : value` object members, positioned at the
first key. -/
def parseObjectItems : Nat → List Char → Option (List (String × JValue) × List Char)
  | 0, _ => none
  | fuel + 1, cs =>
    match cs with
    | '"' :: rest =>
      match parseJString (fuel + 1) rest with
      | none => none
      | some (key, r₁) =>
        match skipWS r₁ with
        | ':' :: r₂ =>
          match parseValue fuel (skipWS r₂) with
          | none => none
          | some (v, r₃) =>
            match skipWS r₃ with
            | ',' :: r₄ =>
              match parseObjectItems fuel (skipWS r₄) with
              | none => none
              | some (ps, r₅) => some ((String.mk key, v) :: ps, r₅)
            | '}' :: r₄ => some ([(String.mk key, v)], r₄)
            | _ => none
        | _ => none
    | _ => none

end

/-- Contract boundary of the Fernet symmetric cipher used by
`SettingsManager`: `_decrypt_value` inverts `_encrypt_value`. -/
structure Cipher where
  encrypt : String → String
  decrypt : String → String
  decrypt_encrypt : ∀ s, decrypt (encrypt s) = s

/-- One row of the `settings` table:
`key TEXT PRIMARY KEY, value TEXT NOT NULL, encrypted BOOLEAN DEFAULT FALSE,
description TEXT, created_at TIMESTAMP DEFAULT CURRENT_TIMESTAMP,
updated_at TIMESTAMP DEFAULT CURRENT_TIMESTAMP`. -/
structure SettingRow where
  key : String
  value : String
  encrypted : Bool
  description : Option String
  created_at : Nat
  updated_at : Nat
deriving DecidableEq, Repr

/-- One row of the `profiles` table:
`name TEXT PRIMARY KEY, settings TEXT NOT NULL, active BOOLEAN DEFAULT FALSE,
created_at TIMESTAMP DEFAULT CURRENT_TIMESTAMP,
updated_at TIMESTAMP DEFAULT CURRENT_TIMESTAMP`. -/
structure ProfileRow where
  name : String
  settings : String
  active : Bool
  created_at : Nat
  updated_at : Nat
deriving DecidableEq, Repr

/-- The SQLite database behind `SettingsManager`, rows in rowid order. -/
structure SettingsDB where
  settings : List SettingRow
  profiles : List ProfileRow
deriving DecidableEq, Repr

/-- Row lookup `SELECT ... FROM settings WHERE key = ?` (the key is the
primary key, so the first match is the row). -/
def SettingsDB.findSetting (db : SettingsDB) (key : String) : Option SettingRow :=
  db.settings.find? (fun r => r.key == key)

/-- Ordering used by `ORDER BY key` on the `settings` table. -/
def keyLE (a b : SettingRow) : Prop := a.key ≤ b.key

instance : DecidableRel keyLE := fun a b => inferInstanceAs (Decidable (a.key ≤ b.key))

instance : IsTotal SettingRow keyLE := ⟨fun a b => le_total a.key b.key⟩

instance : IsTrans SettingRow keyLE := ⟨fun _ _ _ h₁ h₂ => le_trans h₁ h₂⟩

/-- Relation between two `settings` rows that agree on every column the
listing query selects and may differ only in the stored value. -/
@[reducible] def SameShape (r₁ r₂ : SettingRow) : Prop :=
  r₁.key = r₂.key ∧ r₁.encrypted = r₂.encrypted ∧ r₁.description = r₂.description ∧
  r₁.created_at = r₂.created_at ∧ r₁.updated_at = r₂.updated_at

namespace SettingsManager

/-- The serialization step of `SettingsManager.set`:
`str_value = json.dumps(value) if not isinstance(value, str) else value`. -/
def storedPlaintext : PyValue → String
  | .pyStr s => s
  | v => json_dumps v

/-- `SettingsManager.set`: JSON-encode non-string values, optionally
encrypt, then
`INSERT OR REPLACE INTO settings (key, value, encrypted, description, updated_at)
VALUES (?, ?, ?, ?, CURRENT_TIMESTAMP)`.
`OR REPLACE` deletes any row with the same key and inserts a fresh row;
`created_at` is not named in the column list, so the fresh row takes the
schema default `CURRENT_TIMESTAMP` — the overwrite time `now`. -/
def set (c : Cipher) (now : Nat) (key : String) (value : PyValue)
    (encrypted : Bool) (description : Option String) (db : SettingsDB) : SettingsDB :=
  let str_value := storedPlaintext value
  let str_value := if encrypted then c.encrypt str_value else str_value
  { db with settings :=
      db.settings.filter (fun r => r.key != key) ++
        [{ key := key, value := str_value, encrypted := encrypted,
           description := description, created_at := now, updated_at := now }] }

/-- Field projection of `SettingsManager.list_settings`: everything of a
row except its stored value. -/
structure ListingEntry where
  encrypted : Bool
  description : Option String
  created_at : Nat
  updated_at : Nat
deriving DecidableEq, Repr

/-- `SettingsManager.list_settings`:
`SELECT key, encrypted, description, created_at, updated_at FROM settings
ORDER BY key` — the stored value column is never selected. -/
def list_settings (db : SettingsDB) : List (String × ListingEntry) :=
  (List.insertionSort keyLE db.settings).map
    (fun r => (r.key, { encrypted := r.encrypted, description := r.description,
                        created_at := r.created_at, updated_at := r.updated_at }))

/-- `SettingsManager.create_profile`:
`INSERT OR REPLACE INTO profiles (name, settings, updated_at)
VALUES (?, ?, CURRENT_TIMESTAMP)` with `settings` the JSON dump of the
given mapping (taken here as the already-serialized blob).  `active` and
`created_at` are not named, so the fresh row takes the schema defaults
`FALSE` and `CURRENT_TIMESTAMP`. -/
def create_profile (now : Nat) (name : String) (settingsBlob : String)
    (db : SettingsDB) : SettingsDB :=
  { db with profiles :=
      db.profiles.filter (fun p => p.name != name) ++
        [{ name := name, settings := settingsBlob, active := false,
           created_at := now, updated_at := now }] }

/-- `SettingsManager.set_active_profile`: first
`UPDATE profiles SET active = FALSE` on every row, then
`UPDATE profiles SET active = TRUE WHERE name = ?`. -/
def set_active_profile (name : String) (db : SettingsDB) : SettingsDB :=
  let deactivated := db.profiles.map (fun p => { p with active := false })
  { db with profiles :=
      deactivated.map (fun p => if p.name == name then { p with active := true } else p) }

/-- `SettingsManager.get_active_profile`:
`SELECT name FROM profiles WHERE active = TRUE` with `fetchone` — the
first active row in rowid order, if any. -/
def get_active_profile (db : SettingsDB) : Option String :=
  (db.profiles.find? (fun p => p.active)).map (fun p => p.name)

end SettingsManager

/-! ### Backup orchestrator (`github_backup.py`, `tui_app.py`) -/

/-- Outcome of the underlying `git clone --mirror` subprocess for one
repository: success, a `GitCommandError`, or any other exception. -/
inductive CloneOutcome where
  | success
  | gitCommandError (msg : String)
  | otherError (msg : String)
deriving DecidableEq, Repr

/-- Python exceptions that can cross the functions modelled here. -/
inductive PyExc where
  | gitCommandError (msg : String)
  | githubException (msg : String)
  | otherException (msg : String)
deriving DecidableEq, Repr

/-- Environment for one enumerated repository: its name and how each
external call behaves during this run.  `topicsOk` is the
descriptive-fields fetch (`repo.get_topics()` is the API call made while
building the metadata dict); `issuesOk` and `releasesOk` say whether the
issue and release listings raise a `GithubException`. -/
structure RepoEnv where
  name : String
  cloneOutcome : CloneOutcome
  topicsOk : Bool
  issuesOk : Bool
  releasesOk : Bool
deriving DecidableEq, Repr

/-- Behaviour of `git.Repo.clone_from` in the given environment
(the body of the `try` block in `clone_repository`). -/
def repoCloneFrom (r : RepoEnv) : Except PyExc Unit :=
  match r.cloneOutcome with
  | .success => .ok ()
  | .gitCommandError m => .error (.gitCommandError m)
  | .otherError m => .error (.otherException m)

/-- `GitHubBackup.clone_repository`: `try` the clone and return `True`;
`except GitCommandError` return `False`; `except Exception` return
`False`.  The `Except` return type records that the function itself may
in principle raise; the theorems show it never does. -/
def clone_repository (r : RepoEnv) : Except PyExc Bool :=
  match repoCloneFrom r with
  | .ok _ => .ok true
  | .error (.gitCommandError _) => .ok false
  | .error _ => .ok false

/-- Files written (and warnings logged) by
`GitHubBackup.backup_repository_metadata` for one repository. -/
structure MetaResult where
  metadataJson : Bool
  issuesJson : Bool
  releasesJson : Bool
  issuesWarning : Bool
  releasesWarning : Bool
deriving DecidableEq, Repr

/-- `GitHubBackup.backup_repository_metadata`: build the metadata dict
(this calls `repo.get_topics()` outside any `try`, so a failure there
propagates and nothing is written), write `metadata.json`, then
independently `try` the issues dump (a `GithubException` is caught and
logged as a warning, leaving `issues.json` unwritten) and the releases
dump likewise. -/
def backup_repository_metadata (r : RepoEnv) : Except PyExc MetaResult :=
  if r.topicsOk then
    .ok { metadataJson := true
        , issuesJson := r.issuesOk
        , releasesJson := r.releasesOk
        , issuesWarning := !r.issuesOk
        , releasesWarning := !r.releasesOk }
  else .error (.githubException ("get_topics failed for " ++ r.name))

/-- What the per-repository loop body leaves behind for one repository:
its directory, whether the clone succeeded, and the metadata files. -/
structure RepoBackupRecord where
  name : String
  dirCreated : Bool
  cloned : Bool
  meta : MetaResult
deriving DecidableEq, Repr

/-- One iteration of the loop in `backup_repositories` (also the loop of
the TUI's `_backup_selected_repositories`): make the repository
directory, clone (the boolean outcome feeds the counters), then back up
metadata. -/
def backupOneRepo (r : RepoEnv) : Except PyExc RepoBackupRecord := do
  let cloned ← clone_repository r
  let meta ← backup_repository_metadata r
  return { name := r.name, dirCreated := true, cloned := cloned, meta := meta }

/-- Sequential processing of a repository list; an uncaught exception in
any iteration aborts the whole loop, as in Python. -/
def backupRepoList : List RepoEnv → Except PyExc (List RepoBackupRecord)
  | [] => .ok []
  | r :: rs => do
    let record ← backupOneRepo r
    let records ← backupRepoList rs
    return record :: records

/-- `GitHubBackup.backup_repositories`: process every enumerated
repository and log the final success/failure counters (the counters are
incremented per iteration; on the non-aborting path they equal the
counts over the records). -/
def backup_repositories (repos : List RepoEnv) :
    Except PyExc (List RepoBackupRecord × Nat × Nat) := do
  let records ← backupRepoList repos
  return (records,
          (records.filter (fun record => record.cloned)).length,
          (records.filter (fun record => !record.cloned)).length)

/-- Account-level environment for one run: the authenticated user's
profile counters, the enumerated repositories, whether the gist listing
succeeds, and whether backup-root directory creation succeeds. -/
structure AccountEnv where
  login : String
  public_repos : Nat
  total_private_repos : Option Nat
  repos : List RepoEnv
  gistsOk : Bool
  mkdirOk : Bool
deriving DecidableEq, Repr

/-- `GitHubBackup.create_backup_structure`: create the timestamped
backup root and its fixed subdirectories; a filesystem failure
propagates (a structural failure). -/
def create_backup_structure (now : Nat) (acct : AccountEnv) : Except PyExc String :=
  if acct.mkdirOk then
    .ok ("github_backup_" ++ acct.login ++ "_" ++ toString now)
  else .error (.otherException "mkdir failed")

/-- `GitHubBackup.backup_gists`: the whole gist dump sits in a `try`
whose `except GithubException` only logs an error, so the phase never
raises; the boolean says whether `gists.json` was written. -/
def backup_gists (acct : AccountEnv) : Except PyExc Bool :=
  .ok acct.gistsOk

/-- The `backup_summary.json` manifest written at the end of
`run_backup`. -/
structure Manifest where
  backup_date : Nat
  user : String
  backup_location : String
  repositories_count : Nat
  status : String
deriving DecidableEq, Repr

/-- Result of a run: the per-repository records (directories and files
left on disk), the logged clone counters, whether the gist phase ran,
and the manifest if one was written. -/
structure RunOutput where
  records : List RepoBackupRecord
  cloneSuccesses : Nat
  cloneFailures : Nat
  gistsProcessed : Bool
  manifest : Option Manifest
deriving DecidableEq, Repr

/-- `GitHubBackup.run_backup`: create the structure, back up user
metadata, back up all repositories, back up gists, then write
`backup_summary.json` with `repositories_count` taken from the user
profile's `public_repos + (total_private_repos or 0)` and `status`
unconditionally `'completed'`.  The surrounding `try/except` logs and
re-raises, which is the identity on the `Except` value. -/
def run_backup (now : Nat) (acct : AccountEnv) : Except PyExc RunOutput := do
  let loc ← create_backup_structure now acct
  let (records, successes, failures) ← backup_repositories acct.repos
  let _gistsWritten ← backup_gists acct
  let manifest : Manifest :=
    { backup_date := now
    , user := acct.login
    , backup_location := loc
    , repositories_count := acct.public_repos + acct.total_private_repos.getD 0
    , status := "completed" }
  return { records := records
         , cloneSuccesses := successes
         , cloneFailures := failures
         , gistsProcessed := true
         , manifest := some manifest }

/-- `SelectiveBackupProgressScreen._backup_selected_repositories`: fetch
all repositories, keep those whose name is in the caller-supplied
selection set (names not found match nothing and are silently ignored),
and run the same per-repository loop on exactly that sublist. -/
def backup_selected_repositories (selected : List String) (repos : List RepoEnv) :
    Except PyExc (List RepoBackupRecord × Nat × Nat) :=
  backup_repositories (repos.filter (fun r => selected.contains r.name))

/-- `SelectiveBackupProgressScreen._run_selective_backup_sync`: create
the structure, back up user metadata, back up only the selected
repositories, skip the gist phase — and write no summary file at all. -/
def run_selective_backup_sync (now : Nat) (acct : AccountEnv) (selected : List String) :
    Except PyExc RunOutput := do
  let _loc ← create_backup_structure now acct
  let (records, successes, failures) ← backup_selected_repositories selected acct.repos
  return { records := records
         , cloneSuccesses := successes
         , cloneFailures := failures
         , gistsProcessed := false
         , manifest := none }

/-! ### Lemmas: the JSON scalar model round-trips -/

theorem natChars_ne_nil {n : Nat} (h : n ≠ 0) : natChars n ≠ [] := by
  unfold natChars
  simp [Nat.digits_ne_nil_iff_ne_zero, h]

theorem find?_key_filter_append (l : List SettingRow) (r : SettingRow) (key : String)
    (h : r.key = key) :
    ((l.filter (fun x => x.key != key)) ++ [r]).find? (fun x => x.key == key) = some r := by
  induction l with
  | nil => simp [List.find?, h]
  | cons a l ih =>
    by_cases ha : a.key = key
    · simpa [List.filter_cons, ha] using ih
    · simpa [List.filter_cons, ha] using ih

/-- C3 (code bug): overwriting an existing key does not preserve the row's
`created_at` — `INSERT OR REPLACE` deletes the conflicting row and inserts a
fresh one, and since `created_at` is not named in the INSERT column list it
takes its schema default `CURRENT_TIMESTAMP`, the overwrite time `t2`;
`updated_at` is refreshed to `t2` as the claim states. -/
theorem set_overwrite_resets_created_at (c : Cipher) (t1 t2 : Nat) (key : String)
    (v1 v2 : PyValue) (e1 e2 : Bool) (d1 d2 : Option String) (db : SettingsDB) :
    (SettingsManager.set c t2 key v2 e2 d2
        (SettingsManager.set c t1 key v1 e1 d1 db)).findSetting key =
      some { key := key
           , value := if e2 then c.encrypt (SettingsManager.storedPlaintext v2)
                      else SettingsManager.storedPlaintext v2
           , encrypted := e2
           , description := d2
           , created_at := t2
           , updated_at := t2 } := by
  unfold SettingsManager.set SettingsDB.findSetting
  cases e2
  · exact find?_key_filter_append _ _ _ rfl
  · exact find?_key_filter_append _ _ _ rfl

theorem filter_map_comm {α β} (f : α → β) (p : β → Bool) (l : List α) :
    (l.map f).filter p = (l.filter (fun a => p (f a))).map f := by
  induction l with
  | nil => rfl
  | cons a l ih =>
    by_cases h : p (f a)
    · simp [List.filter_cons, h, ih]
    · simp [List.filter_cons, h, ih]

theorem set_active_profile_profiles (name : String) (db : SettingsDB) :
    (SettingsManager.set_active_profile name db).profiles =
      db.profiles.map (fun p => { p with active := p.name == name }) := by
  unfold SettingsManager.set_active_profile
  dsimp only
  rw [List.map_map]
  apply List.map_congr_left
  intro p _
  cases p with
  | mk nm st ac ca ua =>
    cases hb : nm == name
    · simp [Function.comp, hb]
    · simp [Function.comp, hb]

theorem active_after_set_active (db : SettingsDB) (name : String) :
    ((SettingsManager.set_active_profile name db).profiles.filter
        (fun p => p.active)) =
      (db.profiles.filter (fun p => p.name == name)).map
        (fun p => { p with active := true }) := by
  rw [set_active_profile_profiles, filter_map_comm]
  have hp : (fun a : ProfileRow =>
        ({ a with active := a.name == name } : ProfileRow).active) =
      (fun a : ProfileRow => a.name == name) := rfl
  rw [hp]
  apply List.map_congr_left
  intro a ha
  have hmem := (List.mem_filter.mp ha).2
  simp [hmem]

theorem filter_name_eq_of_nodup (l : List ProfileRow) (name : String)
    (h : (l.map (fun p => p.name)).Nodup) :
    ((l.filter (fun p => p.name == name)).map (fun p => p.name)).length ≤ 1 ∧
    (name ∈ l.map (fun p => p.name) →
      (l.filter (fun p => p.name == name)).map (fun p => p.name) = [name]) := by
  induction l with
  | nil => exact ⟨by simp, by simp⟩
  | cons a l ih =>
    rw [List.map_cons, List.nodup_cons] at h
    obtain ⟨hna, hnd⟩ := h
    obtain ⟨ih1, ih2⟩ := ih hnd
    by_cases ha : a.name = name
    · have hfl : l.filter (fun p => p.name == name) = [] := by
        rw [List.filter_eq_nil_iff]
        intro p hp hpe
        apply hna
        have hpn : p.name = a.name := by
          rw [ha]
          simpa using hpe
        rw [← hpn]
        exact List.mem_map_of_mem _ hp
      constructor
      · simp [List.filter_cons, ha, hfl]
      · intro _
        simp [List.filter_cons, ha, hfl]
    · constructor
      · simpa [List.filter_cons, ha] using ih1
      · intro hmem
        rcases List.mem_cons.mp hmem with hmem | hmem
        · exact absurd hmem.symm ha
        · simpa [List.filter_cons, ha] using ih2 hmem

/-- C4 (confirmed): activating a profile name deactivates all rows and then
activates exactly the rows carrying that name, so with distinct profile
names (the `name` column is the primary key) at most one profile is active
afterwards, and when the named profile exists, exactly one profile — the
named one — has `active = true`. -/
theorem set_active_profile_unique (db : SettingsDB) (name : String)
    (hnodup : (db.profiles.map (fun p => p.name)).Nodup) :
    (((SettingsManager.set_active_profile name db).profiles.filter
        (fun p => p.active)).length ≤ 1) ∧
    (name ∈ db.profiles.map (fun p => p.name) →
      ((SettingsManager.set_active_profile name db).profiles.filter
          (fun p => p.active)).map (fun p => p.name) = [name]) := by
  obtain ⟨h1, h2⟩ := filter_name_eq_of_nodup db.profiles name hnodup
  rw [active_after_set_active]
  constructor
  · calc ((db.profiles.filter (fun p => p.name == name)).map
        (fun p => { p with active := true })).length
        = ((db.profiles.filter (fun p => p.name == name)).map
            (fun p => p.name)).length := by simp
      _ ≤ 1 := h1
  · intro hmem
    rw [List.map_map]
    have hcomp : ((fun p : ProfileRow => p.name) ∘
        (fun p : ProfileRow => ({ p with active := true } : ProfileRow))) =
      (fun p : ProfileRow => p.name) := rfl
    rw [hcomp]
    exact h2 hmem

/-- C4 witness: with profiles `A` (active) and `B`, activating `B` leaves
exactly one active profile, namely `B`. -/
theorem set_active_profile_unique_witness :
    (((SettingsManager.set_active_profile "B"
        ⟨[], [⟨"A", "\x7b\x7d", true, 0, 0⟩, ⟨"B", "\x7b\x7d", false, 0, 0⟩]⟩).profiles.filter
        (fun p => p.active)).length ≤ 1) ∧
    ((SettingsManager.set_active_profile "B"
        ⟨[], [⟨"A", "\x7b\x7d", true, 0, 0⟩, ⟨"B", "\x7b\x7d", false, 0, 0⟩]⟩).profiles.filter
        (fun p => p.active)).map (fun p => p.name) = ["B"] :=
  ⟨(set_active_profile_unique
      ⟨[], [⟨"A", "\x7b\x7d", true, 0, 0⟩, ⟨"B", "\x7b\x7d", false, 0, 0⟩]⟩ "B" (by decide)).1,
   (set_active_profile_unique
      ⟨[], [⟨"A", "\x7b\x7d", true, 0, 0⟩, ⟨"B", "\x7b\x7d", false, 0, 0⟩]⟩ "B" (by decide)).2
     (by decide)⟩

/-- C9 (confirmed): recreating the currently active profile `n` replaces its
row via `INSERT OR REPLACE`, whose column list omits `active`, so the fresh
row takes the schema default `FALSE`: afterwards no profile is active and
`get_active_profile` returns `None`. -/
theorem create_profile_clears_active (now : Nat) (n : String) (blob : String)
    (db : SettingsDB)
    (hactive : (db.profiles.filter (fun p => p.active)).map (fun p => p.name) = [n]) :
    ((SettingsManager.create_profile now n blob db).profiles.filter
        (fun p => p.active)) = [] ∧
    SettingsManager.get_active_profile
      (SettingsManager.create_profile now n blob db) = none := by
  have hfil : ((db.profiles.filter (fun p => p.name != n)).filter
      (fun p => p.active)) = [] := by
    rw [List.filter_filter, List.filter_eq_nil_iff]
    intro a ha hcontra
    rw [Bool.and_eq_true] at hcontra
    obtain ⟨h1, h2⟩ := hcontra
    have hmem : a.name ∈ (db.profiles.filter (fun p => p.active)).map
        (fun p => p.name) :=
      List.mem_map_of_mem _ (List.mem_filter.mpr ⟨ha, h1⟩)
    rw [hactive] at hmem
    have han : a.name = n := by simpa using hmem
    simp [han] at h2
  constructor
  · unfold SettingsManager.create_profile
    rw [List.filter_append, hfil]
    rfl
  · unfold SettingsManager.get_active_profile SettingsManager.create_profile
    rw [List.find?_append]
    have h1 : (db.profiles.filter (fun p => p.name != n)).find?
        (fun p => p.active) = none := by
      rw [List.find?_eq_none]
      intro x hx hpx
      have hxmem : x ∈ (db.profiles.filter (fun p => p.name != n)).filter
          (fun p => p.active) := List.mem_filter.mpr ⟨hx, hpx⟩
      rw [hfil] at hxmem
      cases hxmem
    rw [h1]
    rfl

/-- C9 witness: recreating the active profile `work` leaves no active
profile and `get_active_profile` returns `None`. -/
theorem create_profile_clears_active_witness :
    ((SettingsManager.create_profile 9 "work" "\x7b\x7d"
        ⟨[], [⟨"work", "\x7b\x7d", true, 0, 0⟩, ⟨"home", "\x7b\x7d", false, 0, 0⟩]⟩).profiles.filter
        (fun p => p.active)) = [] ∧
    SettingsManager.get_active_profile
      (SettingsManager.create_profile 9 "work" "\x7b\x7d"
        ⟨[], [⟨"work", "\x7b\x7d", true, 0, 0⟩, ⟨"home", "\x7b\x7d", false, 0, 0⟩]⟩) = none :=
  create_profile_clears_active 9 "work" "\x7b\x7d"
    ⟨[], [⟨"work", "\x7b\x7d", true, 0, 0⟩, ⟨"home", "\x7b\x7d", false, 0, 0⟩]⟩ (by decide)

/-! ### Lemmas: the listing never reads values -/

theorem orderedInsert_forall₂ {a b : SettingRow} (hab : SameShape a b) :
    ∀ {l₁ l₂ : List SettingRow}, List.Forall₂ SameShape l₁ l₂ →
      List.Forall₂ SameShape (List.orderedInsert keyLE a l₁)
        (List.orderedInsert keyLE b l₂) := by
  intro l₁
  induction l₁ with
  | nil =>
    intro l₂ h
    cases h
    exact .cons hab .nil
  | cons x l₁ ih =>
    intro l₂ h
    cases h with
    | cons hxy htail =>
      rename_i y l₂'
      simp only [List.orderedInsert]
      have hiff : keyLE a x ↔ keyLE b y := by
        unfold keyLE
        rw [hab.1, hxy.1]
      by_cases hax : keyLE a x
      · rw [if_pos hax, if_pos (hiff.mp hax)]
        exact .cons hab (.cons hxy htail)
      · rw [if_neg hax, if_neg (fun hby => hax (hiff.mpr hby))]
        exact .cons hxy (ih htail)

theorem insertionSort_forall₂ :
    ∀ {l₁ l₂ : List SettingRow}, List.Forall₂ SameShape l₁ l₂ →
      List.Forall₂ SameShape (List.insertionSort keyLE l₁)
        (List.insertionSort keyLE l₂) := by
  intro l₁
  induction l₁ with
  | nil =>
    intro l₂ h
    cases h
    exact .nil
  | cons x l₁ ih =>
    intro l₂ h
    cases h with
    | cons hxy htail =>
      simp only [List.insertionSort]
      exact orderedInsert_forall₂ hxy (ih htail)

theorem map_entry_eq :
    ∀ {l₁ l₂ : List SettingRow}, List.Forall₂ SameShape l₁ l₂ →
      l₁.map (fun r => (r.key,
        ({ encrypted := r.encrypted, description := r.description,
           created_at := r.created_at, updated_at := r.updated_at }
          : SettingsManager.ListingEntry))) =
      l₂.map (fun r => (r.key,
        ({ encrypted := r.encrypted, description := r.description,
           created_at := r.created_at, updated_at := r.updated_at }
          : SettingsManager.ListingEntry))) := by
  intro l₁
  induction l₁ with
  | nil =>
    intro l₂ h
    cases h
    rfl
  | cons x l₁ ih =>
    intro l₂ h
    cases h with
    | cons hxy htail =>
      obtain ⟨h1, h2, h3, h4, h5⟩ := hxy
      rw [List.map_cons, List.map_cons, ih htail, h1, h2, h3, h4, h5]

/-- C8 (confirmed): the listing selects, for every stored key in key order,
only the fields encrypted/description/created_at/updated_at and never the
stored value: two stores whose rows agree on everything except their stored
values produce identical listings, the listed keys are sorted, and they are
exactly the stored keys. -/
theorem list_settings_no_values (db₁ db₂ : SettingsDB)
    (h : List.Forall₂ SameShape db₁.settings db₂.settings) :
    SettingsManager.list_settings db₁ = SettingsManager.list_settings db₂ ∧
    ((SettingsManager.list_settings db₁).map Prod.fst).Sorted (· ≤ ·) ∧
    ((SettingsManager.list_settings db₁).map Prod.fst).Perm
      (db₁.settings.map (fun r => r.key)) := by
  have hcomp : (Prod.fst ∘ fun r : SettingRow => (r.key,
      ({ encrypted := r.encrypted, description := r.description,
         created_at := r.created_at, updated_at := r.updated_at }
        : SettingsManager.ListingEntry))) = fun r : SettingRow => r.key := rfl
  refine ⟨?_, ?_, ?_⟩
  · unfold SettingsManager.list_settings
    exact map_entry_eq (insertionSort_forall₂ h)
  · unfold SettingsManager.list_settings
    rw [List.map_map, hcomp]
    exact List.Pairwise.map _ (fun a b hab => hab)
      (List.sorted_insertionSort keyLE db₁.settings)
  · unfold SettingsManager.list_settings
    rw [List.map_map, hcomp]
    exact (List.perm_insertionSort keyLE db₁.settings).map (fun r => r.key)

/-- C8 witness: two concrete stores, one holding an encrypted token `sec`
and the other `other`, produce the same listing, with sorted keys that are
exactly the stored keys. -/
theorem list_settings_no_values_witness :
    SettingsManager.list_settings
        ⟨[⟨"github_token", "sec", true, none, 0, 1⟩,
          ⟨"backup_directory", "./backups", false, none, 0, 1⟩], []⟩ =
      SettingsManager.list_settings
        ⟨[⟨"github_token", "other", true, none, 0, 1⟩,
          ⟨"backup_directory", "./elsewhere", false, none, 0, 1⟩], []⟩ ∧
    ((SettingsManager.list_settings
        ⟨[⟨"github_token", "sec", true, none, 0, 1⟩,
          ⟨"backup_directory", "./backups", false, none, 0, 1⟩], []⟩).map
        Prod.fst).Sorted (· ≤ ·) ∧
    ((SettingsManager.list_settings
        ⟨[⟨"github_token", "sec", true, none, 0, 1⟩,
          ⟨"backup_directory", "./backups", false, none, 0, 1⟩], []⟩).map
        Prod.fst).Perm ["github_token", "backup_directory"] :=
  list_settings_no_values
    ⟨[⟨"github_token", "sec", true, none, 0, 1⟩,
      ⟨"backup_directory", "./backups", false, none, 0, 1⟩], []⟩
    ⟨[⟨"github_token", "other", true, none, 0, 1⟩,
      ⟨"backup_directory", "./elsewhere", false, none, 0, 1⟩], []⟩
    (.cons ⟨rfl, rfl, rfl, rfl, rfl⟩ (.cons ⟨rfl, rfl, rfl, rfl, rfl⟩ .nil))

/-! ### Lemmas: the orchestrator -/

theorem bind_ok {α β : Type} (x : α) (g : α → Except PyExc β) :
    (Except.ok x >>= g) = g x := rfl

theorem clone_repository_eq (r : RepoEnv) :
    clone_repository r = .ok (r.cloneOutcome == CloneOutcome.success) := by
  unfold clone_repository repoCloneFrom
  cases r.cloneOutcome <;> rfl

theorem backupOneRepo_ok (r : RepoEnv) (h : r.topicsOk = true) :
    backupOneRepo r = .ok
      { name := r.name, dirCreated := true,
        cloned := r.cloneOutcome == CloneOutcome.success,
        meta := { metadataJson := true, issuesJson := r.issuesOk,
                  releasesJson := r.releasesOk, issuesWarning := !r.issuesOk,
                  releasesWarning := !r.releasesOk } } := by
  unfold backupOneRepo backup_repository_metadata
  rw [clone_repository_eq, if_pos h]
  rfl

theorem backupRepoList_ok (repos : List RepoEnv)
    (h : ∀ r ∈ repos, r.topicsOk = true) :
    backupRepoList repos = .ok (repos.map (fun r =>
      ({ name := r.name, dirCreated := true,
         cloned := r.cloneOutcome == CloneOutcome.success,
         meta := { metadataJson := true, issuesJson := r.issuesOk,
                   releasesJson := r.releasesOk, issuesWarning := !r.issuesOk,
                   releasesWarning := !r.releasesOk } } : RepoBackupRecord))) := by
  induction repos with
  | nil => rfl
  | cons r rs ih =>
    have hr := h r (List.mem_cons_self r rs)
    have hrs := ih (fun x hx => h x (List.mem_cons_of_mem r hx))
    simp only [backupRepoList]
    rw [backupOneRepo_ok r hr, hrs]
    rfl

theorem backup_repositories_ok (repos : List RepoEnv)
    (h : ∀ r ∈ repos, r.topicsOk = true) :
    backup_repositories repos = .ok
      (repos.map (fun r =>
        ({ name := r.name, dirCreated := true,
           cloned := r.cloneOutcome == CloneOutcome.success,
           meta := { metadataJson := true, issuesJson := r.issuesOk,
                     releasesJson := r.releasesOk, issuesWarning := !r.issuesOk,
                     releasesWarning := !r.releasesOk } } : RepoBackupRecord))
      , (repos.filter (fun r => r.cloneOutcome == CloneOutcome.success)).length
      , (repos.filter
          (fun r => !(r.cloneOutcome == CloneOutcome.success))).length) := by
  unfold backup_repositories
  rw [backupRepoList_ok repos h, bind_ok]
  rw [filter_map_comm, filter_map_comm, List.length_map, List.length_map]
  rfl

/-- C6 (confirmed): the clone operation returns its outcome as a value — it
yields `True` exactly when the underlying mirror clone succeeded and `False`
on a `GitCommandError` or any other exception, and it never propagates an
exception (its result is always `ok`). -/
theorem clone_repository_soft_failure (r : RepoEnv) :
    (clone_repository r).isOk = true ∧
    clone_repository r = .ok (r.cloneOutcome == CloneOutcome.success) :=
  ⟨by rw [clone_repository_eq]; rfl, clone_repository_eq r⟩

/-- C5 (amended): the issues and releases sub-fetches are attempted
independently — a `GithubException` in either is caught and logged, leaving
only that sub-resource's file unwritten, without affecting the other
sub-fetch, the clone outcome, or the per-repository step's success; but a
failure in the descriptive-fields fetch (`get_topics`) propagates out of
the metadata routine, and no `partial` status is recorded anywhere. -/
theorem metadata_subfetch_independence (r : RepoEnv) :
    (r.topicsOk = true →
      backupOneRepo r = .ok
        { name := r.name, dirCreated := true,
          cloned := r.cloneOutcome == CloneOutcome.success,
          meta := { metadataJson := true, issuesJson := r.issuesOk,
                    releasesJson := r.releasesOk, issuesWarning := !r.issuesOk,
                    releasesWarning := !r.releasesOk } }) ∧
    (r.topicsOk = false →
      backup_repository_metadata r =
        .error (.githubException ("get_topics failed for " ++ r.name))) := by
  constructor
  · exact fun h => backupOneRepo_ok r h
  · intro h
    unfold backup_repository_metadata
    simp [h]

/-- C5 witness: with a failing issues fetch the repository step still
succeeds — metadata and releases are written, only `issues.json` is missing
and a warning is logged — while a failing descriptive fetch raises. -/
theorem metadata_subfetch_independence_witness :
    backupOneRepo ⟨"a", .success, true, false, true⟩ = .ok
      { name := "a", dirCreated := true, cloned := true,
        meta := { metadataJson := true, issuesJson := false, releasesJson := true,
                  issuesWarning := true, releasesWarning := false } } ∧
    backup_repository_metadata ⟨"b", .success, false, true, true⟩ =
      .error (.githubException "get_topics failed for b") := by
  constructor
  · rw [(metadata_subfetch_independence ⟨"a", .success, true, false, true⟩).1 rfl]
    rfl
  · exact (metadata_subfetch_independence ⟨"b", .success, false, true, true⟩).2 rfl

/-- C5 counterexample: the claim as stated fails — a failure in the
descriptive-fields sub-fetch is not recorded as partial but aborts the
whole run: with one repository whose `get_topics` call fails, `run_backup`
raises and writes no manifest. -/
theorem metadata_descriptive_aborts_cex :
    run_backup 0 ⟨"u", 1, none, [⟨"b", .success, false, true, true⟩], true, true⟩ =
      .error (.githubException "get_topics failed for b") := by
  rfl

/-- C1 (amended): a full run over any enumerated repository list — however
many repositories fail to clone — still completes and writes a manifest;
but the manifest's `status` is unconditionally `completed` (never
`completed_with_errors`), its `repositories_count` is taken from the user
profile's `public_repos + (total_private_repos or 0)` rather than from the
enumerated list, and the per-repository outcomes appear only in the
logged success/failure counters, not in the manifest. -/
theorem run_backup_manifest (now : Nat) (acct : AccountEnv)
    (hmk : acct.mkdirOk = true) (hmeta : ∀ r ∈ acct.repos, r.topicsOk = true) :
    run_backup now acct = .ok
      { records := acct.repos.map (fun r =>
          ({ name := r.name, dirCreated := true,
             cloned := r.cloneOutcome == CloneOutcome.success,
             meta := { metadataJson := true, issuesJson := r.issuesOk,
                       releasesJson := r.releasesOk, issuesWarning := !r.issuesOk,
                       releasesWarning := !r.releasesOk } } : RepoBackupRecord))
      , cloneSuccesses := (acct.repos.filter
          (fun r => r.cloneOutcome == CloneOutcome.success)).length
      , cloneFailures := (acct.repos.filter
          (fun r => !(r.cloneOutcome == CloneOutcome.success))).length
      , gistsProcessed := true
      , manifest := some
          { backup_date := now
          , user := acct.login
          , backup_location := "github_backup_" ++ acct.login ++ "_" ++ toString now
          , repositories_count := acct.public_repos + acct.total_private_repos.getD 0
          , status := "completed" } } := by
  unfold run_backup create_backup_structure backup_gists
  rw [if_pos hmk, backup_repositories_ok acct.repos hmeta]
  rfl

/-- C1 witness: a 2-repository account where one clone fails still yields a
manifest; the failure shows up only in the logged counters. -/
theorem run_backup_manifest_witness :
    run_backup 5 ⟨"alice", 7, none,
        [⟨"r1", .success, true, true, true⟩,
         ⟨"r2", .gitCommandError "denied", true, true, true⟩], true, true⟩ = .ok
      { records :=
          [{ name := "r1", dirCreated := true, cloned := true,
             meta := { metadataJson := true, issuesJson := true, releasesJson := true,
                       issuesWarning := false, releasesWarning := false } },
           { name := "r2", dirCreated := true, cloned := false,
             meta := { metadataJson := true, issuesJson := true, releasesJson := true,
                       issuesWarning := false, releasesWarning := false } }]
      , cloneSuccesses := 1
      , cloneFailures := 1
      , gistsProcessed := true
      , manifest := some
          { backup_date := 5, user := "alice",
            backup_location := "github_backup_alice_5",
            repositories_count := 7, status := "completed" } } := by
  rw [run_backup_manifest 5 ⟨"alice", 7, none,
    [⟨"r1", .success, true, true, true⟩,
     ⟨"r2", .gitCommandError "denied", true, true, true⟩], true, true⟩ rfl (by decide)]
  rfl

/-- C1 counterexample: the claim as stated fails — over 2 enumerated
repositories with exactly one clone failure, the manifest's status is
`completed`, not `completed_with_errors`, and `repositories_count` is the
profile's repository total (here 7), not the enumerated count 2. -/
theorem run_backup_manifest_cex :
    (run_backup 0 ⟨"u", 7, none,
        [⟨"ok1", .success, true, true, true⟩,
         ⟨"bad", .gitCommandError "denied", true, true, true⟩], true, true⟩).map
      (fun out => (out.manifest.map Manifest.status,
                   out.manifest.map Manifest.repositories_count)) =
      .ok (some "completed", some 7) ∧
    "completed" ≠ "completed_with_errors" ∧ (7 : Nat) ≠ 2 := by
  refine ⟨rfl, by decide, by decide⟩

/-- C7 (amended): a selective run backs up exactly the enumerated
repositories whose names are in the caller-supplied set — requested names
not found in the account are silently ignored — and skips the gist-backup
phase; but it writes no manifest at all. -/
theorem selective_run_no_manifest (now : Nat) (acct : AccountEnv)
    (selected : List String) (hmk : acct.mkdirOk = true)
    (hmeta : ∀ r ∈ acct.repos.filter (fun r => selected.contains r.name),
      r.topicsOk = true) :
    run_selective_backup_sync now acct selected = .ok
      { records := (acct.repos.filter (fun r => selected.contains r.name)).map
          (fun r =>
            ({ name := r.name, dirCreated := true,
               cloned := r.cloneOutcome == CloneOutcome.success,
               meta := { metadataJson := true, issuesJson := r.issuesOk,
                         releasesJson := r.releasesOk, issuesWarning := !r.issuesOk,
                         releasesWarning := !r.releasesOk } } : RepoBackupRecord))
      , cloneSuccesses := ((acct.repos.filter
          (fun r => selected.contains r.name)).filter
            (fun r => r.cloneOutcome == CloneOutcome.success)).length
      , cloneFailures := ((acct.repos.filter
          (fun r => selected.contains r.name)).filter
            (fun r => !(r.cloneOutcome == CloneOutcome.success))).length
      , gistsProcessed := false
      , manifest := none } := by
  unfold run_selective_backup_sync backup_selected_repositories
    create_backup_structure
  rw [if_pos hmk, backup_repositories_ok _ hmeta]
  rfl

/-- C7 witness: selecting `r2` and `r4` (plus a name `ghost` not in the
account) out of a 5-repository account processes exactly `r2` and `r4`,
skips gists, and produces no manifest. -/
theorem selective_run_no_manifest_witness :
    run_selective_backup_sync 2 ⟨"bob", 5, some 0,
        [⟨"r1", .success, true, true, true⟩,
         ⟨"r2", .success, true, true, true⟩,
         ⟨"r3", .success, true, true, true⟩,
         ⟨"r4", .success, true, true, true⟩,
         ⟨"r5", .success, true, true, true⟩], true, true⟩
      ["r2", "r4", "ghost"] = .ok
      { records :=
          [{ name := "r2", dirCreated := true, cloned := true,
             meta := { metadataJson := true, issuesJson := true, releasesJson := true,
                       issuesWarning := false, releasesWarning := false } },
           { name := "r4", dirCreated := true, cloned := true,
             meta := { metadataJson := true, issuesJson := true, releasesJson := true,
                       issuesWarning := false, releasesWarning := false } }]
      , cloneSuccesses := 2
      , cloneFailures := 0
      , gistsProcessed := false
      , manifest := none } := by
  rw [selective_run_no_manifest 2 ⟨"bob", 5, some 0,
    [⟨"r1", .success, true, true, true⟩,
     ⟨"r2", .success, true, true, true⟩,
     ⟨"r3", .success, true, true, true⟩,
     ⟨"r4", .success, true, true, true⟩,
     ⟨"r5", .success, true, true, true⟩], true, true⟩
    ["r2", "r4", "ghost"] rfl (by decide)]
  rfl

/-- C7 counterexample: the claim as stated fails — the selective run over a
5-repository account with 2 selected names does process exactly those 2 and
skips gists, but its manifest is absent (`none`), so no manifest listing
the two repositories is produced. -/
theorem selective_run_cex :
    (run_selective_backup_sync 0 ⟨"bob", 5, some 0,
        [⟨"r1", .success, true, true, true⟩,
         ⟨"r2", .success, true, true, true⟩,
         ⟨"r3", .success, true, true, true⟩,
         ⟨"r4", .success, true, true, true⟩,
         ⟨"r5", .success, true, true, true⟩], true, true⟩
      ["r2", "r4"]).map
      (fun out => (out.manifest, out.records.map RepoBackupRecord.name,
                   out.gistsProcessed)) =
      .ok (none, ["r2", "r4"], false) := by
  rfl

end GitKeeper
